import Mathlib

/-!
Shallow embedding of `src/sample_api.py`: a linear batch job that pulls JSON
records from an HTTP API (`pull_data_from_api`), serialises them to a CSV file
(`save_data_to_csv`), loads them into a Snowflake warehouse
(`upload_to_snowflake`), and an orchestrator (`main`) that sequences the three.

External collaborators (the `requests` library, `pandas`, the Snowflake
connector, the filesystem) are modelled by their documented behaviour:
  * `requests.get` either raises a `RequestException` (network failure) or
    yields a response with a status code and a body that may or may not parse
    as JSON;
  * `Response.raise_for_status` raises `HTTPError` exactly when the status
    code is in 400..599 (client and server errors), and for no other status;
  * `Response.json` raises `requests.exceptions.JSONDecodeError` on a
    malformed body; since requests 2.27 that exception is a subclass of
    `RequestException`, so the function's `except` clause catches it;
  * `pandas.DataFrame(list_of_dicts)` builds columns as the union of the
    dict keys in order of first appearance, filling missing cells with NaN
    (serialised by `to_csv` as the empty string); `pandas.DataFrame(None)`
    is the empty frame with no columns and no rows;
  * `DataFrame.to_csv(path, index=False)` writes a header row followed by
    one row per record, raising on an I/O error (modelled by a boolean
    `ioOk` environment flag);
  * `snowflake.connector.connect` and `Connection.cursor` each either
    succeed or raise (boolean environment flags).

Python scalar values inside records are modelled as strings; a record (JSON
object / Python dict) is an association list from field names to values; the
JSON payload expected by the pipeline is a list of records.
-/

namespace SampleApi

/-- One record of the payload: a flat JSON object, field name to scalar. -/
abbrev Record := List (String × String)

/-- A Python exception, carrying whether it is a `requests.exceptions.RequestException`
(the only class caught by `pull_data_from_api`). -/
structure PyExn where
  name : String
  isRequestException : Bool

/-- `requests` network-level failure (timeout, DNS, connection refused). -/
def requestsNetworkError : PyExn :=
  { name := "requests.exceptions.ConnectionError", isRequestException := true }

/-- Raised by `Response.raise_for_status` on a 4xx/5xx status. -/
def httpError : PyExn :=
  { name := "requests.exceptions.HTTPError", isRequestException := true }

/-- Raised by `Response.json` on a malformed body (requests >= 2.27: a
subclass of `RequestException`). -/
def jsonDecodeError : PyExn :=
  { name := "requests.exceptions.JSONDecodeError", isRequestException := true }

/-- The `TypeError` Python raises when a function is called with the wrong
number of positional arguments; not a `RequestException`. -/
def typeErrorArity : PyExn :=
  { name := "TypeError", isRequestException := false }

/-- An HTTP response reaching the caller of `requests.get`: a status code and
a body; `body = none` models a body that does not parse as JSON. -/
structure HttpResponse where
  status : Nat
  body : Option (List Record)

/-- Outcome of the `requests.get` call itself. -/
inductive HttpOutcome where
  | networkError : HttpOutcome
  | success : HttpResponse → HttpOutcome

/-- `Response.raise_for_status`: raises `HTTPError` iff the status code is in
400..599 (documented behaviour of the requests library). -/
def raise_for_status (status : Nat) : Except PyExn Unit :=
  if 400 ≤ status ∧ status < 600 then .error httpError else .ok ()

/-- `Response.json`: the parsed body, or `JSONDecodeError` if malformed. -/
def response_json (body : Option (List Record)) : Except PyExn (List Record) :=
  match body with
  | some v => .ok v
  | none => .error jsonDecodeError

/-- The body of the `try` block of `pull_data_from_api` (src/sample_api.py
lines 27-31): GET, `raise_for_status`, log, `response.json()`. -/
def pull_attempt (o : HttpOutcome) : Except PyExn (List Record) :=
  match o with
  | .networkError => .error requestsNetworkError
  | .success resp =>
    match raise_for_status resp.status with
    | .error e => .error e
    | .ok _ => response_json resp.body

/-- `pull_data_from_api` (src/sample_api.py lines 18-34): the `try` body with
an `except requests.exceptions.RequestException` clause that logs and returns
`None`; any other exception would propagate to the caller. -/
def pull_data_from_api (o : HttpOutcome) : Except PyExn (Option (List Record)) :=
  match pull_attempt o with
  | .ok v => .ok (some v)
  | .error e => if e.isRequestException then .ok none else .error e

/-- Python truthiness of the fetched payload as used in `main`'s `if data:`:
`None` is falsy, a list is truthy iff non-empty. -/
def pyTruthy (data : Option (List Record)) : Bool :=
  match data with
  | none => false
  | some rs => !rs.isEmpty

/-- The in-memory tabular dataset (`pandas.DataFrame`): an ordered column
list and one row of cells per record. -/
structure DataFrame where
  cols : List String
  rows : List (List String)

/-- The keys of one record, in order. -/
def recordKeys (r : Record) : List String := r.map Prod.fst

/-- Append a key to the column list if not already present (pandas collects
columns in order of first appearance). -/
def insertKey (cols : List String) (k : String) : List String :=
  if k ∈ cols then cols else cols ++ [k]

/-- Union of all keys across the records, in order of first appearance. -/
def unionKeys (rs : List Record) : List String :=
  rs.foldl (fun cols r => (recordKeys r).foldl insertKey cols) []

/-- Cell value of record `r` in column `k`: the first binding of `k`, or the
empty string (pandas NaN serialised by `to_csv`) when `k` is missing. -/
def dictGet (r : Record) (k : String) : String :=
  match r.find? (fun kv => kv.1 == k) with
  | some kv => kv.2
  | none => ""

/-- `pandas.DataFrame(data)`: `None` yields the empty frame; a list of dicts
yields columns = union of keys in first-appearance order, one row per dict in
input order, missing cells filled with the empty marker. -/
def mkDataFrame (data : Option (List Record)) : DataFrame :=
  match data with
  | none => { cols := [], rows := [] }
  | some rs =>
    let cols := unionKeys rs
    { cols := cols, rows := rs.map (fun r => cols.map (fun c => dictGet r c)) }

/-- The file content written by `DataFrame.to_csv(path, index=False)`:
a header row of the column names, then the data rows. -/
def to_csv (df : DataFrame) : List (List String) :=
  df.cols :: df.rows

/-- What `save_data_to_csv` did to the filesystem: whether a write happened
and, if so, the file content. -/
structure WriteEffect where
  wrote : Bool
  file : List (List String)

/-- `save_data_to_csv` (src/sample_api.py lines 36-49): builds a DataFrame
from `data`, writes it to the path, logs; on any exception it logs and
`return None`; the success path has NO return statement, so the Python
function returns `None` on every path — hence the first component is
literally `none`. `ioOk` models whether the `to_csv` write succeeds. -/
def save_data_to_csv (data : Option (List Record)) (ioOk : Bool) :
    Option DataFrame × WriteEffect :=
  (none,
    if ioOk then { wrote := true, file := to_csv (mkDataFrame data) }
    else { wrote := false, file := [] })

/-- Environment of one `upload_to_snowflake` call: whether
`snowflake.connector.connect` succeeds, and whether the cursor/insert/close
sequence after it succeeds. -/
structure SnowflakeEnv where
  connectOk : Bool
  cursorOk : Bool

/-- Observable resource effect of one `upload_to_snowflake` call. -/
structure UploadEffect where
  connOpened : Bool
  connCloses : Nat

/-- `upload_to_snowflake` (src/sample_api.py lines 51-76): everything sits in
one `try` block with `except Exception` that only logs — so the function never
raises. `conn.close()` is the last statement of the `try` block: if
`connect` fails no connection is opened; if the cursor/insert step (or
`cursor.close()`) raises after the connection was opened, control jumps to the
`except` clause and `conn.close()` is never executed (there is no
`finally`/`with`). -/
def upload_to_snowflake (env : SnowflakeEnv) : UploadEffect :=
  if env.connectOk then
    if env.cursorOk then { connOpened := true, connCloses := 1 }
    else { connOpened := true, connCloses := 0 }
  else { connOpened := false, connCloses := 0 }

/-- Environment of one run of `main`: the outcomes of the two `requests.get`
calls, the two `to_csv` write outcomes, the `GCS_BUCKET_NAME` environment
variable, and the Snowflake environment. -/
structure RunEnv where
  fetch1 : HttpOutcome
  fetch2 : HttpOutcome
  io1Ok : Bool
  io2Ok : Bool
  gcsBucket : Option String
  sf : SnowflakeEnv

/-- Observable trace of one run of `main`. -/
structure MainTrace where
  filesWritten : List (List (List String))
  loaderCallAttempts : Nat
  loaderBodyRuns : Nat
  connOpens : Nat
  connCloses : Nat
  noDataExit : Bool
  bucketMissingExit : Bool

/-- The trace of a run that produced no side effects. -/
def emptyTrace : MainTrace :=
  { filesWritten := [], loaderCallAttempts := 0, loaderBodyRuns := 0,
    connOpens := 0, connCloses := 0, noDataExit := false,
    bucketMissingExit := false }

/-- Record a `save_data_to_csv` filesystem effect in the list of files
written during the run. -/
def appendWrite (l : List (List (List String))) (eff : WriteEffect) :
    List (List (List String)) :=
  if eff.wrote then l ++ [eff.file] else l

/-- `main` (src/sample_api.py lines 79-128), statement by statement. First
block (lines 86-101): fetch; if truthy, save (binding the always-`None`
result to `df`) and, only if `df is not None`, call the loader with two
arguments; else log and return. Control then FALLS THROUGH (lines 104-128) to
a duplicated second fetch-and-save; there, if `GCS_BUCKET_NAME` is unset main
logs and returns, otherwise it calls `upload_to_snowflake(bucket_name,
file_path, destination_blob_name)` — three arguments to a two-parameter
function, which raises an uncaught `TypeError` at the call site, before the
loader body can run. The second component of the result is the uncaught
exception terminating the run, if any. -/
def main (env : RunEnv) : MainTrace × Option PyExn :=
  match pull_data_from_api env.fetch1 with
  | .error e => (emptyTrace, some e)
  | .ok data =>
    if pyTruthy data then
      let s1 := save_data_to_csv data env.io1Ok
      let w1 := appendWrite [] s1.2
      let t1 : MainTrace :=
        match s1.1 with
        | some _ =>
          let u := upload_to_snowflake env.sf
          { filesWritten := w1, loaderCallAttempts := 1, loaderBodyRuns := 1,
            connOpens := if u.connOpened then 1 else 0,
            connCloses := u.connCloses, noDataExit := false,
            bucketMissingExit := false }
        | none =>
          { filesWritten := w1, loaderCallAttempts := 0, loaderBodyRuns := 0,
            connOpens := 0, connCloses := 0, noDataExit := false,
            bucketMissingExit := false }
      match pull_data_from_api env.fetch2 with
      | .error e => (t1, some e)
      | .ok data2 =>
        if pyTruthy data2 then
          let s2 := save_data_to_csv data2 env.io2Ok
          let w2 := appendWrite t1.filesWritten s2.2
          match env.gcsBucket with
          | none => ({ t1 with filesWritten := w2, bucketMissingExit := true }, none)
          | some _ =>
            ({ t1 with filesWritten := w2, loaderCallAttempts := t1.loaderCallAttempts + 1 },
             some typeErrorArity)
        else ({ t1 with noDataExit := true }, none)
    else ({ emptyTrace with noDataExit := true }, none)

/-! ## Helper lemmas about the column union -/

theorem mem_insertKey (cols : List String) (k a : String) :
    a ∈ insertKey cols k ↔ a ∈ cols ∨ a = k := by
  unfold insertKey
  by_cases h : k ∈ cols
  · simp only [if_pos h]
    constructor
    · exact Or.inl
    · rintro (ha | rfl)
      · exact ha
      · exact h
  · simp only [if_neg h, List.mem_append, List.mem_singleton]

theorem mem_foldl_insertKey (ks : List String) (cols : List String) (a : String) :
    a ∈ ks.foldl insertKey cols ↔ a ∈ cols ∨ a ∈ ks := by
  induction ks generalizing cols with
  | nil => simp
  | cons k ks ih =>
    simp only [List.foldl_cons, ih, mem_insertKey, List.mem_cons]
    tauto

theorem mem_unionKeys (rs : List Record) (a : String) :
    a ∈ unionKeys rs ↔ ∃ r, r ∈ rs ∧ a ∈ recordKeys r := by
  suffices h : ∀ cols, a ∈ rs.foldl (fun cs r => (recordKeys r).foldl insertKey cs) cols ↔
      a ∈ cols ∨ ∃ r, r ∈ rs ∧ a ∈ recordKeys r by
    simpa [unionKeys] using h []
  induction rs with
  | nil => intro cols; simp
  | cons r rs ih =>
    intro cols
    simp only [List.foldl_cons, ih, mem_foldl_insertKey, List.mem_cons]
    constructor
    · rintro ((hc | hr) | ⟨r2, hr2, ha⟩)
      · exact Or.inl hc
      · exact Or.inr ⟨r, Or.inl rfl, hr⟩
      · exact Or.inr ⟨r2, Or.inr hr2, ha⟩
    · rintro (hc | ⟨r2, (rfl | hr2), ha⟩)
      · exact Or.inl (Or.inl hc)
      · exact Or.inl (Or.inr ha)
      · exact Or.inr ⟨r2, hr2, ha⟩

/-! ## Concrete run environments used by single-scenario theorems -/

/-- Both fetches return the two-record payload of end-to-end scenario 1, both
CSV writes fail with an I/O error, `GCS_BUCKET_NAME` is set and the Snowflake
environment is healthy. -/
def envWritesFail : RunEnv :=
  { fetch1 := .success ⟨200, some [[("id","1"),("val","a")],[("id","2"),("val","b")]]⟩,
    fetch2 := .success ⟨200, some [[("id","1"),("val","a")],[("id","2"),("val","b")]]⟩,
    io1Ok := false, io2Ok := false, gcsBucket := some "warehouse-bucket",
    sf := { connectOk := true, cursorOk := true } }

/-- Both fetches return the two-record payload of end-to-end scenario 1, both
CSV writes succeed, `GCS_BUCKET_NAME` is set and the Snowflake environment is
healthy: the fully successful environment. -/
def envAllHealthy : RunEnv :=
  { fetch1 := .success ⟨200, some [[("id","1"),("val","a")],[("id","2"),("val","b")]]⟩,
    fetch2 := .success ⟨200, some [[("id","1"),("val","a")],[("id","2"),("val","b")]]⟩,
    io1Ok := true, io2Ok := true, gcsBucket := some "warehouse-bucket",
    sf := { connectOk := true, cursorOk := true } }

/-! ## The claims -/

/-- C1, counterexample: in a run of `upload_to_snowflake` where the connection
is successfully opened but the cursor/insert step then raises, the connection
is closed zero times, not exactly once — the `except` clause swallows the
error before the `conn.close()` line is reached. -/
theorem C1_counterexample :
    (upload_to_snowflake ⟨true, false⟩).connOpened = true ∧
    (upload_to_snowflake ⟨true, false⟩).connCloses = 0 ∧
    (upload_to_snowflake ⟨true, false⟩).connCloses ≠ 1 :=
  ⟨rfl, rfl, by decide⟩

/-- C1, amended: when `upload_to_snowflake` successfully opens a connection,
the connection is closed exactly once if the cursor/insert step succeeds, and
zero times if that step raises (the error is caught and logged, but there is
no `finally`/`with`, so `conn.close()` is skipped). -/
theorem C1_amended_close_count (env : SnowflakeEnv)
    (h : (upload_to_snowflake env).connOpened = true) :
    (upload_to_snowflake env).connCloses = if env.cursorOk then 1 else 0 := by
  rcases env with ⟨c, k⟩
  cases c with
  | true => cases k <;> rfl
  | false => simp [upload_to_snowflake] at h

/-- C1, witness for the amended theorem at a healthy environment: the
connection is opened and closed exactly once. -/
theorem C1_amended_close_count_witness :
    (upload_to_snowflake ⟨true, true⟩).connOpened = true ∧
    (upload_to_snowflake ⟨true, true⟩).connCloses = 1 :=
  ⟨rfl, by simpa using C1_amended_close_count ⟨true, true⟩ rfl⟩

/-- C2: in every run of `main`, whatever the environment, the body of the
warehouse loader executes zero times — never the "exactly once" the claim
requires. The first block's call is guarded by `df is not None` and
`save_data_to_csv` returns `None` on every path, and the second block's call
passes three arguments to the two-parameter `upload_to_snowflake`, raising
`TypeError` at the call site. -/
theorem C2_loader_never_invoked (env : RunEnv) : (main env).1.loaderBodyRuns = 0 := by
  unfold main
  repeat' split <;> try rfl

/-- C3, counterexample: called with the absence-of-data marker `None`,
`save_data_to_csv` does mutate the filesystem — `pd.DataFrame(None)` is the
empty frame and `to_csv` writes an empty header-only file — while returning
`None`. -/
theorem C3_counterexample :
    (save_data_to_csv none true).2.wrote = true ∧
    (save_data_to_csv none true).2.file = [[]] ∧
    (save_data_to_csv none true).1 = none :=
  ⟨rfl, rfl, rfl⟩

/-- C3, amended: given `None`, `save_data_to_csv` builds an empty dataset and
writes it to the path (an empty header-only file, overwriting any existing
file) whenever the underlying write succeeds, and returns `None` (the failure
marker) in all cases. -/
theorem C3_amended_none_writes_empty (ioOk : Bool) :
    save_data_to_csv none ioOk =
      (none, if ioOk then { wrote := true, file := [[]] }
             else { wrote := false, file := [] }) := by
  cases ioOk <;> rfl

/-- C4, counterexample: a non-2xx status outside 400..599 — here an unfollowed
300 Multiple Choices with a JSON body — is NOT turned into `None`:
`raise_for_status` only raises for 400..599, so the parsed body is returned. -/
theorem C4_counterexample :
    pull_data_from_api (.success ⟨300, some [[("id","1"),("val","a")]]⟩) =
      .ok (some [[("id","1"),("val","a")]]) ∧
    ¬ (200 ≤ 300 ∧ 300 ≤ 299) :=
  ⟨rfl, by decide⟩

/-- C4, amended: `pull_data_from_api` never raises to its caller, and any
HTTP status in 400..599, any network-level failure, and any malformed
(non-JSON) response body yields the absence-of-data marker `None`; only the
"any non-2xx status" part of the claim had to be narrowed to 400..599. -/
theorem C4_amended_error_statuses (o : HttpOutcome) :
    (∃ r, pull_data_from_api o = .ok r) ∧
    (o = .networkError → pull_data_from_api o = .ok none) ∧
    (∀ resp, o = .success resp → 400 ≤ resp.status → resp.status < 600 →
      pull_data_from_api o = .ok none) ∧
    (∀ resp, o = .success resp → resp.body = none →
      pull_data_from_api o = .ok none) := by
  cases o with
  | networkError =>
    refine ⟨⟨none, rfl⟩, fun _ => rfl, ?_, ?_⟩ <;> intro resp hresp <;> cases hresp
  | success resp =>
    by_cases hs : 400 ≤ resp.status ∧ resp.status < 600
    · have hp : pull_data_from_api (.success resp) = .ok none := by
        simp [pull_data_from_api, pull_attempt, raise_for_status, hs, httpError]
      refine ⟨⟨none, hp⟩, ?_, ?_, ?_⟩
      · intro h; cases h
      · intro resp2 h2 _ _; exact h2 ▸ hp
      · intro resp2 h2 _; exact h2 ▸ hp
    · cases hb : resp.body with
      | none =>
        have hp : pull_data_from_api (.success resp) = .ok none := by
          simp [pull_data_from_api, pull_attempt, raise_for_status, hs, response_json, hb,
            jsonDecodeError]
        refine ⟨⟨none, hp⟩, ?_, ?_, ?_⟩
        · intro h; cases h
        · intro resp2 h2 h3 h4
          cases h2
          exact absurd ⟨h3, h4⟩ hs
        · intro resp2 h2 _; exact h2 ▸ hp
      | some v =>
        have hp : pull_data_from_api (.success resp) = .ok (some v) := by
          simp [pull_data_from_api, pull_attempt, raise_for_status, hs, response_json, hb]
        refine ⟨⟨some v, hp⟩, ?_, ?_, ?_⟩
        · intro h; cases h
        · intro resp2 h2 h3 h4
          cases h2
          exact absurd ⟨h3, h4⟩ hs
        · intro resp2 h2 hbody
          cases h2
          rw [hb] at hbody
          cases hbody

/-- C4, witness for the amended theorem: an HTTP 500 with a well-formed body
yields the absence-of-data marker. -/
theorem C4_amended_error_statuses_witness :
    pull_data_from_api (.success ⟨500, some [[("id","1"),("val","a")]]⟩) = .ok none :=
  (C4_amended_error_statuses (.success ⟨500, some [[("id","1"),("val","a")]]⟩)).2.2.1
    ⟨500, some [[("id","1"),("val","a")]]⟩ rfl (by decide) (by decide)

/-- C5: in the run where both fetches succeed with a non-empty payload but
both CSV writes fail (so no tabular dataset is ever successfully produced:
no file is written and `save_data_to_csv` returns `None`), `main`
nevertheless attempts one warehouse-loader call — the unguarded three-argument
call of the duplicated second block. -/
theorem C5_loader_attempt_without_dataset :
    (main envWritesFail).1.filesWritten = [] ∧
    (save_data_to_csv (some [[("id","1"),("val","a")],[("id","2"),("val","b")]]) false).1
      = none ∧
    (main envWritesFail).1.loaderCallAttempts = 1 :=
  ⟨rfl, rfl, rfl⟩

/-- C6: in every run whose first fetch yields the absence-of-data marker
(e.g. an HTTP 500), `main` logs, terminates in the failed state and performs
no further side effects: no file written, no loader call attempted, no
warehouse connection opened, no uncaught exception. -/
theorem C6_fetch_failure_halts (env : RunEnv)
    (h : pull_data_from_api env.fetch1 = .ok none) :
    main env = ({ emptyTrace with noDataExit := true }, none) := by
  unfold main
  rw [h]
  rfl

/-- C6, witness: a run whose first fetch is an HTTP 500 ends in the failed
state with the empty trace. -/
theorem C6_fetch_failure_halts_witness :
    main { fetch1 := .success ⟨500, none⟩, fetch2 := .success ⟨500, none⟩,
           io1Ok := true, io2Ok := true, gcsBucket := none,
           sf := { connectOk := true, cursorOk := true } }
      = ({ emptyTrace with noDataExit := true }, none) :=
  C6_fetch_failure_halts _ rfl

/-- C7: for every non-empty record sequence, a successful `save_data_to_csv`
writes a file whose header row is the union of all keys across the records
(in first-appearance order) and whose data rows are one per input record, in
input order, each row listing the record's value per column with the empty
marker for missing keys. -/
theorem C7_csv_shape (rs : List Record) (_h : rs ≠ []) :
    (save_data_to_csv (some rs) true).2.wrote = true ∧
    (save_data_to_csv (some rs) true).2.file =
      unionKeys rs :: rs.map (fun r => (unionKeys rs).map (fun c => dictGet r c)) ∧
    (∀ k, k ∈ unionKeys rs ↔ ∃ r, r ∈ rs ∧ k ∈ recordKeys r) ∧
    (rs.map (fun r => (unionKeys rs).map (fun c => dictGet r c))).length = rs.length := by
  refine ⟨rfl, rfl, fun k => mem_unionKeys rs k, ?_⟩
  simp

/-- C7, witness at the payload of end-to-end scenario 1: header `id,val` and
two data rows. -/
theorem C7_csv_shape_witness :
    ([[("id","1"),("val","a")],[("id","2"),("val","b")]] : List Record) ≠ [] ∧
    (save_data_to_csv (some [[("id","1"),("val","a")],[("id","2"),("val","b")]]) true).2.wrote
      = true ∧
    (save_data_to_csv (some [[("id","1"),("val","a")],[("id","2"),("val","b")]]) true).2.file
      = [["id","val"], ["1","a"], ["2","b"]] := by
  have h := C7_csv_shape [[("id","1"),("val","a")],[("id","2"),("val","b")]] (by decide)
  refine ⟨by decide, h.1, ?_⟩
  rw [h.2.1]
  rfl

/-- C8: in the fully healthy environment (both fetches succeed with records,
both writes succeed, `GCS_BUCKET_NAME` set), `main` terminates with an
uncaught `TypeError`: the second block calls the two-parameter
`upload_to_snowflake` with three arguments, and `TypeError` is not a
`RequestException`, so nothing catches it. -/
theorem C8_uncaught_typeerror :
    (main envAllHealthy).2 = some typeErrorArity ∧
    typeErrorArity.isRequestException = false :=
  ⟨rfl, rfl⟩

/-- C9: `save_data_to_csv` returns `None` on every path — in particular it
returns `None`, not the produced dataset, on a successful serialisation (here
shown writing a one-record file), so the orchestrator's `df is not None`
check fails for every successfully written dataset. -/
theorem C9_save_returns_none :
    (∀ data ioOk, (save_data_to_csv data ioOk).1 = none) ∧
    (save_data_to_csv (some [[("id","1"),("val","a")]]) true).2.wrote = true :=
  ⟨fun _ _ => rfl, rfl⟩

/-- C10: in every run whose first fetch succeeds with the empty-but-valid
payload `[]`, `main` behaves exactly as on a fetch failure: it logs the
no-data error and terminates with no file written, no loader call, no
warehouse connection and no exception. -/
theorem C10_empty_payload_like_failure (env : RunEnv)
    (h : pull_data_from_api env.fetch1 = .ok (some [])) :
    main env = ({ emptyTrace with noDataExit := true }, none) := by
  unfold main
  rw [h]
  rfl

/-- C10, witness: a 200 response whose body is the empty JSON array ends the
run in the failed state with the empty trace. -/
theorem C10_empty_payload_like_failure_witness :
    main { fetch1 := .success ⟨200, some []⟩, fetch2 := .success ⟨200, some []⟩,
           io1Ok := true, io2Ok := true, gcsBucket := none,
           sf := { connectOk := true, cursorOk := true } }
      = ({ emptyTrace with noDataExit := true }, none) :=
  C10_empty_payload_like_failure _ rfl

end SampleApi
